import Mathlib

/-!
Shallow embedding of the xisp libcamera pipeline handler
(`src/source/libcamera/src/libcamera/pipeline/xisp/xisp.cpp`) and proofs about
its topology discovery, configuration validation, format propagation and
buffer-completion logic.
-/

namespace XISP

/-! ## Basic data: sizes and media-bus codes -/

/-- Image size, mirroring libcamera `Size` (width, height in pixels). -/
structure Size where
  width : Nat
  height : Nat
deriving DecidableEq

instance : Inhabited Size := ⟨⟨0, 0⟩⟩

/-- Media-bus code `MEDIA_BUS_FMT_RBG888_1X24` (linux/media-bus-format.h). -/
def MEDIA_BUS_FMT_RBG888_1X24 : Nat := 0x100e

/-- Media-bus code `MEDIA_BUS_FMT_SRGGB10_1X10` (linux/media-bus-format.h). -/
def MEDIA_BUS_FMT_SRGGB10_1X10 : Nat := 0x300f

/-! ## String containment, mirroring `std::string::find(pat) != npos` -/

/-- Whether the first character list is a prefix of the second. -/
def listIsPrefix : List Char → List Char → Bool
  | [], _ => true
  | _ :: _, [] => false
  | a :: as, b :: bs => a == b && listIsPrefix as bs

/-- Whether `pat` occurs as a contiguous substring of the second argument;
this is `name.find(pat) != std::string::npos` on C++ strings. -/
def containsSub (pat : List Char) : List Char → Bool
  | [] => listIsPrefix pat []
  | c :: rest => listIsPrefix pat (c :: rest) || containsSub pat rest

/-! ## Sensor profile lookup (xisp.cpp, `match`, lines 616–649)

Inside the entity scan, an entity whose name contains `"imx"` is taken as the
sensor; four further substring tests each overwrite `sensorBestSize_` and
`sensorBestFormatCode_`, executed in source order, so a later match overrides
an earlier one. -/

/-- A sensor's preferred native capture size and media-bus code, as recorded
in `sensorBestSize_` / `sensorBestFormatCode_`. -/
structure SensorProfile where
  size : Size
  code : Nat
deriving DecidableEq

/-- Sensor-profile lookup performed by the entity scan of
`PipelineHandlerXISP::match` (lines 616–649): the four `imx*` substring tests
in source order, each overwriting the recorded profile. Names matching none of
the four record nothing. -/
def sensorProfileLookup (name : List Char) : Option SensorProfile :=
  if containsSub "imx".toList name then
    let p : Option SensorProfile := none
    let p := if containsSub "imx219".toList name then
      some ⟨⟨1920, 1080⟩, MEDIA_BUS_FMT_SRGGB10_1X10⟩ else p
    let p := if containsSub "imx708".toList name then
      some ⟨⟨1536, 864⟩, MEDIA_BUS_FMT_SRGGB10_1X10⟩ else p
    let p := if containsSub "imx477".toList name then
      some ⟨⟨1332, 990⟩, MEDIA_BUS_FMT_SRGGB10_1X10⟩ else p
    let p := if containsSub "imx500".toList name then
      some ⟨⟨2028, 1520⟩, MEDIA_BUS_FMT_SRGGB10_1X10⟩ else p
    p
  else none

/-! ## Discovery loop (xisp.cpp, `match`, lines 588–606)

`for (unsigned int i = 0; i < 4; i++)` builds the entity name
`vcap_mipi_<i>_v_proc output 0`, queries the enumerator, and breaks on the
first acquired media device. We abstract the enumerator as a predicate
`present : Nat → Bool` saying whether the device group for index `i` exists. -/

/-- The discovery loop from a given index with the given remaining fuel,
returning the selected index together with the list of indices queried. -/
def matchLoopAux (present : Nat → Bool) : Nat → Nat → Option Nat × List Nat
  | 0, _ => (none, [])
  | fuel + 1, i =>
    if present i then (some i, [i])
    else
      let r := matchLoopAux present fuel (i + 1)
      (r.1, i :: r.2)

/-- The discovery loop of `PipelineHandlerXISP::match` (lines 588–606):
indices 0,1,2,3 tried in ascending order, stopping at the first match.
Returns the selected index (if any) and the query trace. -/
def matchLoop (present : Nat → Bool) : Option Nat × List Nat :=
  matchLoopAux present 4 0

/-! ## Post-scan binding chain of `match` (xisp.cpp lines 673–747)

After the entity scan, `match` opens the receiver (`csi2rx_`), ISP core
(`xisp_`), resizer and capture handles, pushes the single `Pipe`, checks the
sensor entity, creates the camera data and registers the camera. We record
the outcome of one scan as the booleans/error codes the chain branches on.
Open calls return 0 on success and a nonzero (negative errno) code on failure.
Note the C++ function returns `bool`; `return ret` after a failed
`capture->open()` converts the nonzero errno to `true`. -/

/-- Result of the entity scan as consumed by the binding chain of `match`:
which role handles were resolved, each open call's return code, and the
sensor-entity facts the tail of `match` branches on. -/
structure ScanResult where
  csi2rxFound : Bool
  csi2rxOpen : Int
  xispFound : Bool
  xispOpen : Int
  resizerFound : Bool
  resizerOpen : Int
  captureFound : Bool
  captureOpen : Int
  sensorFound : Bool
  sensorIsCamSensor : Bool
  sensorCreateOk : Bool
deriving DecidableEq

/-- A successfully bound pipeline: how many `Pipe` entries were pushed onto
`pipes_` and how many `Stream`s the registered camera's data holds. -/
structure BoundPipeline where
  pipes : Nat
  camStreams : Nat
deriving DecidableEq

/-- Outcome of the binding chain: either `match` returns (with its boolean
value and, when a camera was registered, the bound pipeline), or it
dereferences the null `sensor_entity` pointer. -/
inductive MatchOutcome where
  | returned (value : Bool) (bound : Option BoundPipeline)
  | nullDeref
deriving DecidableEq

/-- Number of streams created by the `XISPCameraData` constructor
(xisp.cpp lines 45–53): `streams_.resize(1)`. -/
def initialStreamCount : Nat := 1

/-- The binding chain of `PipelineHandlerXISP::match` after the entity scan
(xisp.cpp lines 673–747), branch for branch. `csi2rx_`, `xisp_` and the
resizer fail with `return false` both when unresolved and when `open()`
fails; the capture stage instead executes `return ret` inside a `bool`
function, so a nonzero errno converts to `true`. The camera-data `init()`
(lines 156–170) fails only when the sensor object could not be created. -/
def matchBind (s : ScanResult) : MatchOutcome :=
  if !s.csi2rxFound then .returned false none
  else if s.csi2rxOpen != 0 then .returned false none
  else if !s.xispFound then .returned false none
  else if s.xispOpen != 0 then .returned false none
  else if !s.resizerFound then .returned false none
  else if s.resizerOpen != 0 then .returned false none
  else if !s.captureFound then .returned false none
  else if s.captureOpen != 0 then .returned (s.captureOpen != 0) none
  else
    let pipes : Nat := 1
    if pipes == 0 then .returned false none
    else if !s.sensorFound then .nullDeref
    else if !s.sensorIsCamSensor then .returned false none
    else if !s.sensorCreateOk then .returned false none
    else .returned true (some ⟨pipes, initialStreamCount⟩)

/-! ## Stream configuration and validation (xisp.cpp lines 188–278)

Pixel formats are modelled as abstract numeric identifiers; the only one the
handler pins down is `formats::RBG888`. The external `PixelFormatInfo`
metadata service (stride / frame size / bits-per-pixel / plane count) and the
`toV4L2PixelFormat` mapping are collaborators outside this source file, so
they enter as an abstract record of functions. -/

/-- Pixel-format identifier for `formats::RBG888`, the format the handler
defaults to. The concrete value only needs to be a distinguished identifier. -/
def PF_RBG888 : Nat := 0x52424724

/-- External pixel-format metadata service and fourcc mapping (libcamera
`PixelFormatInfo` and `V4L2VideoDevice::toV4L2PixelFormat`), abstracted as
functions: stride of (format, width, plane), frame size of (format, size,
bitsPerPixel), bits-per-pixel of format, plane count of format, and the
V4L2 fourcc of a pixel format. -/
structure ExternalInfo where
  strideOf : Nat → Nat → Nat → Nat
  frameSizeOf : Nat → Size → Nat → Nat
  bppOf : Nat → Nat
  numPlanesOf : Nat → Nat
  fourccOf : Nat → Nat

/-- One `StreamConfiguration` entry: requested size and pixel format, the
derived stride / frame size, the buffer count, and the bound stream
(positional index into the camera's stream collection), `none` if unbound. -/
structure StreamCfg where
  size : Size
  pixelFormat : Nat
  stride : Nat
  frameSize : Nat
  bufferCount : Nat
  stream : Option Nat
deriving DecidableEq

instance : Inhabited StreamCfg := ⟨⟨⟨0, 0⟩, 0, 0, 0, 0, none⟩⟩

/-- Modelled from the spec: libcamera's `Size` strict ordering
(`operator<` in `src/libcamera/geometry.cpp`, which is part of this
repository's vendored libcamera but not under `src/`): a size strictly
smaller in one dimension and no larger in the other is smaller; otherwise
the comparison falls back to the areas. `a.size > b` is `b < a.size`. -/
def sizeLtB (a b : Size) : Bool :=
  (decide (a.width < b.width) && decide (a.height ≤ b.height))
  || (decide (a.width ≤ b.width) && decide (a.height < b.height))
  || decide (a.width * a.height < b.width * b.height)

/-- The per-entry loop of `validate` (xisp.cpp lines 226–240): entry `i` is
bound to the `i`-th available stream (the streams are extracted from the
ordered set in positional order) and given stride and frame size computed
from `fmt0`, the first entry's pixel format. -/
def assignStreams (info : ExternalInfo) (fmt0 : Nat) :
    Nat → List StreamCfg → List StreamCfg
  | _, [] => []
  | i, e :: rest =>
    { e with
      stream := some i
      stride := info.strideOf fmt0 e.size.width 0
      frameSize := info.frameSizeOf fmt0 e.size (info.bppOf fmt0) }
      :: assignStreams info fmt0 (i + 1) rest

/-- Result of `XISPCameraConfiguration::validate`: `invalid` for an empty
proposal, otherwise the status flag (`true` = `Adjusted`), the mutated
configuration entries, and the computed `sensorFormat_` code and size. -/
inductive ValidateResult where
  | invalid
  | ok (adjusted : Bool) (configs : List StreamCfg) (sensorCode : Nat) (sensorSize : Size)
deriving DecidableEq

/-- `XISPCameraConfiguration::validate` (xisp.cpp lines 188–278).
`numStreams` is `data_->streams_.size()` (the size of `availableStreams`);
entries beyond the available streams, and then beyond one, are dropped with
status `Adjusted`. Each surviving entry is bound to the next available
stream in positional order and given stride / frame size computed from the
*first* entry's pixel format. The sensor size is the running maximum (under
the libcamera `Size` ordering) of the surviving entries' sizes, and the
sensor code is fixed to `MEDIA_BUS_FMT_RBG888_1X24`. -/
def validate (info : ExternalInfo) (numStreams : Nat) (cfgs : List StreamCfg) :
    ValidateResult :=
  if cfgs.isEmpty then .invalid
  else
    let adjusted1 := decide (numStreams < cfgs.length)
    let cfgs1 := if adjusted1 then cfgs.take numStreams else cfgs
    let adjusted2 := decide (1 < cfgs1.length)
    let cfgs2 := if adjusted2 then cfgs1.take 1 else cfgs1
    let fmt0 := (cfgs2.headI).pixelFormat
    let assigned := assignStreams info fmt0 0 cfgs2
    let maxSize := assigned.foldl
      (fun m e => if sizeLtB m e.size then e.size else m) ⟨0, 0⟩
    .ok (adjusted1 || adjusted2) assigned MEDIA_BUS_FMT_RBG888_1X24 maxSize

/-- The element-wise maximum of a list of sizes, stated from the spec's words
(§4.3 rule 6: "the element-wise maximum width/height across all entries'
requested sizes"). Used to compare `validate`'s computed sensor size against
the specified one. -/
def elementWiseMax (sizes : List Size) : Size :=
  sizes.foldl (fun acc s => ⟨max acc.width s.width, max acc.height s.height⟩) ⟨0, 0⟩

/-! ## Configuration generation (xisp.cpp lines 290–390) -/

/-- `StreamRole` as seen by the `switch` in `generateConfiguration`: the four
named roles plus a constructor for any other value reaching the `default`
branch. -/
inductive StreamRole where
  | Raw
  | StillCapture
  | VideoRecording
  | Viewfinder
  | unknown
deriving DecidableEq

/-- Whether the `switch` in `generateConfiguration` accepts the role
(xisp.cpp lines 312–335); every named role `break`s, the `default` branch
rejects. -/
def roleSupported : StreamRole → Bool
  | .Raw => true
  | .StillCapture => true
  | .VideoRecording => true
  | .Viewfinder => true
  | .unknown => false

/-- The configuration entries held by a camera configuration after
`validate()` ran on it: an early `Invalid` return leaves the entries as they
were; otherwise the mutated entries are kept. -/
def configsAfterValidate : ValidateResult → List StreamCfg → List StreamCfg
  | .invalid, orig => orig
  | .ok _ out _ _, _ => out

/-- `PipelineHandlerXISP::generateConfiguration` (xisp.cpp lines 290–390):
an empty role list yields an empty proposal; more roles than streams
(`initialStreamCount = 1`), or any unsupported role, yields `none`;
otherwise one entry with size 640×480, pixel format `RBG888`, buffer count
4 and metadata-derived stride / frame size is added and `validate()` is run
on the proposal before it is returned. -/
def generateConfiguration (info : ExternalInfo) (roles : List StreamRole) :
    Option (List StreamCfg) :=
  if roles.isEmpty then some []
  else if decide (initialStreamCount < roles.length) then none
  else if roles.all roleSupported then
    let cfg : StreamCfg :=
      { size := ⟨640, 480⟩
        pixelFormat := PF_RBG888
        stride := info.strideOf PF_RBG888 640 0
        frameSize := info.frameSizeOf PF_RBG888 ⟨640, 480⟩ (info.bppOf PF_RBG888)
        bufferCount := 4
        stream := none }
    some (configsAfterValidate (validate info initialStreamCount [cfg]) [cfg])
  else none

/-! ## Format propagation: `configure` (xisp.cpp lines 392–496)

Each `setFormat` call hands the device a format and receives back a return
code together with the (possibly driver-adjusted) format, which the C++ code
writes back into the local variable and feeds to the next stage. Devices are
abstracted as deterministic functions. -/

/-- A sub-device format: media-bus code and size (`V4L2SubdeviceFormat`). -/
structure SubdevFormat where
  code : Nat
  size : Size
deriving DecidableEq

/-- A capture-device format (`V4L2DeviceFormat`): fourcc, size, plane count
and the first plane's bytes-per-line. -/
structure CaptureFormat where
  fourcc : Nat
  size : Size
  planesCount : Nat
  bpl : Nat
deriving DecidableEq

/-- One format-set call issued by `configure`, with the format argument it
handed to the device. -/
inductive DevCall where
  | sensorSet (f : SubdevFormat)
  | csi2rxSet (pad : Nat) (f : SubdevFormat)
  | xispSet (pad : Nat) (f : SubdevFormat)
  | resizerSet (pad : Nat) (f : SubdevFormat)
  | captureSet (f : CaptureFormat)
deriving DecidableEq

/-- Pipeline stage of a call, numbered upstream to downstream: sensor 0,
receiver 1, ISP core 2, resizer 3, capture 4. -/
def stageOf : DevCall → Nat
  | .sensorSet _ => 0
  | .csi2rxSet _ _ => 1
  | .xispSet _ _ => 2
  | .resizerSet _ _ => 3
  | .captureSet _ => 4

/-- The devices `configure` talks to, as deterministic functions from the
format argument to (return code, adjusted format written back). -/
structure Devices where
  sensorSet : SubdevFormat → Int × SubdevFormat
  csi2rxSet : Nat → SubdevFormat → Int × SubdevFormat
  xispSet : Nat → SubdevFormat → Int × SubdevFormat
  resizerSet : Nat → SubdevFormat → Int × SubdevFormat
  captureSet : CaptureFormat → Int × CaptureFormat

/-- Result of `configure`: the returned error code, the format-set calls
issued paired with each call's return code, and the final
`enabledStreams_` list. -/
structure ConfigureResult where
  ret : Int
  calls : List (DevCall × Int)
  enabledStreams : List (Option Nat)
deriving DecidableEq

/-- The per-stream loop of `configure` (xisp.cpp lines 450–493): for each
entry, set the resizer's pads 0 and 1 (to the running `xispFormat` and
`vpssFormat`, each updated by the device's write-back) and then the capture
format built from the entry; abort with the failing call's code on the first
failure; on success append the entry's stream to `enabledStreams_`. -/
def configureLoop (dev : Devices) (info : ExternalInfo) :
    SubdevFormat → SubdevFormat → List StreamCfg →
    List (DevCall × Int) → List (Option Nat) → ConfigureResult
  | _, _, [], calls, enabled => ⟨0, calls, enabled⟩
  | xispFormat, vpssFormat, cfg :: rest, calls, enabled =>
    let r1 := dev.resizerSet 0 xispFormat
    let calls := calls ++ [(.resizerSet 0 xispFormat, r1.1)]
    if r1.1 != 0 then ⟨r1.1, calls, enabled⟩
    else
      let xispFormat := r1.2
      let r2 := dev.resizerSet 1 vpssFormat
      let calls := calls ++ [(.resizerSet 1 vpssFormat, r2.1)]
      if r2.1 != 0 then ⟨r2.1, calls, enabled⟩
      else
        let vpssFormat := r2.2
        let cf : CaptureFormat :=
          ⟨info.fourccOf cfg.pixelFormat, cfg.size,
           info.numPlanesOf cfg.pixelFormat, cfg.stride⟩
        let r3 := dev.captureSet cf
        let calls := calls ++ [(.captureSet cf, r3.1)]
        if r3.1 != 0 then ⟨r3.1, calls, enabled⟩
        else
          configureLoop dev info xispFormat vpssFormat rest calls
            (enabled ++ [cfg.stream])

/-- `PipelineHandlerXISP::configure` (xisp.cpp lines 392–496).
`sensorBestSize` / `sensorBestFormatCode` are the handler fields recorded at
discovery, `sensorSel` is the configuration's computed `sensorFormat_`, and
`prevEnabled` the `enabledStreams_` list left by an earlier `configure`.
The sensor, the receiver's pads 0 and 1 and the ISP core's pads 0 and 1 are
set in that order (the ISP core's pad 0 receives the running receiver
format, its pad 1 the fixed internal `RBG888_1X24` format at the sensor's
best size); any failure returns that call's code at once. Only then is
`enabledStreams_` cleared and the per-stream loop run. -/
def configure (dev : Devices) (info : ExternalInfo) (sensorBestSize : Size)
    (sensorBestFormatCode : Nat) (sensorSel : SubdevFormat)
    (entries : List StreamCfg) (prevEnabled : List (Option Nat)) :
    ConfigureResult :=
  let csi2rxFormat : SubdevFormat := ⟨sensorBestFormatCode, sensorBestSize⟩
  let xispFormat : SubdevFormat := ⟨MEDIA_BUS_FMT_RBG888_1X24, sensorBestSize⟩
  let vpssFormat : SubdevFormat := ⟨MEDIA_BUS_FMT_RBG888_1X24, sensorSel.size⟩
  let r1 := dev.sensorSet csi2rxFormat
  let calls := [((DevCall.sensorSet csi2rxFormat : DevCall), r1.1)]
  if r1.1 != 0 then ⟨r1.1, calls, prevEnabled⟩
  else
    let csi2rxFormat := r1.2
    let r2 := dev.csi2rxSet 0 csi2rxFormat
    let calls := calls ++ [(.csi2rxSet 0 csi2rxFormat, r2.1)]
    if r2.1 != 0 then ⟨r2.1, calls, prevEnabled⟩
    else
      let csi2rxFormat := r2.2
      let r3 := dev.csi2rxSet 1 csi2rxFormat
      let calls := calls ++ [(.csi2rxSet 1 csi2rxFormat, r3.1)]
      if r3.1 != 0 then ⟨r3.1, calls, prevEnabled⟩
      else
        let csi2rxFormat := r3.2
        let r4 := dev.xispSet 0 csi2rxFormat
        let calls := calls ++ [(.xispSet 0 csi2rxFormat, r4.1)]
        if r4.1 != 0 then ⟨r4.1, calls, prevEnabled⟩
        else
          let r5 := dev.xispSet 1 xispFormat
          let calls := calls ++ [(.xispSet 1 xispFormat, r5.1)]
          if r5.1 != 0 then ⟨r5.1, calls, prevEnabled⟩
          else
            let xispFormat := r5.2
            configureLoop dev info xispFormat vpssFormat entries calls []

/-! ## Stream-to-pipe resolution (xisp.cpp lines 59–62 and 749–762) -/

/-- `XISPCameraData::pipeIndex` (lines 59–62): the pointer difference
`stream - &*streams_.begin()`, i.e. the stream's positional index within the
camera's stream collection. -/
def pipeIndex (streamPos : Nat) : Nat := streamPos

/-- `PipelineHandlerXISP::pipeFromStream` (lines 749–762): index `pipes_`
with `pipeIndex`, with no bounds check in the source; the access is modelled
as a lookup that is `none` exactly when the unchecked access would be out of
bounds. -/
def pipeFromStream (pipes : List Nat) (streamPos : Nat) : Option Nat :=
  pipes.get? (pipeIndex streamPos)

/-! ## Buffer-completion path (xisp.cpp lines 764–779)

`bufferReady` is called once per hardware completion; it stamps the request's
`SensorTimestamp` metadata if not yet present, completes the buffer, and
completes the request when no buffer is still pending. The framework
primitives `completeBuffer`, `hasPendingBuffers` and `completeRequest` are
libcamera code that is part of this repository but not under `src/`. -/

/-- Runtime state of one `Request`: the buffer slots not yet fulfilled, the
`SensorTimestamp` metadata entry, and how many times the request has been
completed (the claim under verification is that this count reaches exactly
one). -/
structure ReqState where
  pendingSlots : List Nat
  timestamp : Option Nat
  completions : Nat
deriving DecidableEq

/-- Modelled from the spec: `Request` buffer completion (§4.4 "Mark that
buffer as fulfilled for its Request"; the libcamera `completeBuffer`
primitive is not under `src/`). The slot is removed from the pending ones;
completing a slot that is not pending changes nothing. -/
def completeBuffer (s : ReqState) (slot : Nat) : ReqState :=
  { s with pendingSlots := s.pendingSlots.erase slot }

/-- Modelled from the spec: whether the request still has unfulfilled buffer
slots (§4.4 "If the Request still has unfulfilled buffer slots, do nothing
further"; libcamera's `Request::hasPendingBuffers` is not under `src/`). -/
def hasPendingBuffers (s : ReqState) : Bool := !s.pendingSlots.isEmpty

/-- Modelled from the spec: completing a request hands it back to the owning
framework (§4.4; libcamera's `completeRequest` is not under `src/`). We
count the hand-backs. -/
def completeRequest (s : ReqState) : ReqState :=
  { s with completions := s.completions + 1 }

/-- `PipelineHandlerXISP::bufferReady` (xisp.cpp lines 764–779) acting on one
ready report `(slot, ts)`: stamp `SensorTimestamp` from the buffer's
hardware timestamp if the metadata does not yet contain one, complete the
buffer, and, if no buffer is pending any more, complete the request. -/
def bufferReady (s : ReqState) (slot ts : Nat) : ReqState :=
  let s := if s.timestamp.isNone then { s with timestamp := some ts } else s
  let s := completeBuffer s slot
  if hasPendingBuffers s then s else completeRequest s

/-- Process a list of ready reports in order, one `bufferReady` call each. -/
def runReady (s : ReqState) : List (Nat × Nat) → ReqState
  | [] => s
  | (b, t) :: rest => runReady (bufferReady s b t) rest

/-- Initial runtime state of a request over the given buffer slots: all
slots pending, no timestamp, never completed. -/
def initReq (slots : List Nat) : ReqState := ⟨slots, none, 0⟩

/-- The status of a `validate` run: `none` for `Invalid`, otherwise
`some adjusted`. -/
def statusOf : ValidateResult → Option Bool
  | .invalid => none
  | .ok adj _ _ _ => some adj

/-- The configuration entries of a non-`Invalid` `validate` run. -/
def configsOf : ValidateResult → List StreamCfg
  | .invalid => []
  | .ok _ out _ _ => out

/-- The computed `sensorFormat_.size` of a non-`Invalid` `validate` run. -/
def sensorSizeOf : ValidateResult → Option Size
  | .invalid => none
  | .ok _ _ _ sz => some sz

/-! ## Concrete instances used to evaluate the definitions -/

/-- A trivial external-metadata instance: every query answers 0. -/
def infoZero : ExternalInfo :=
  ⟨fun _ _ _ => 0, fun _ _ _ => 0, fun _ => 0, fun _ => 0, fun _ => 0⟩

/-- Devices that accept every format unchanged. -/
def devZero : Devices :=
  ⟨fun f => (0, f), fun _ f => (0, f), fun _ f => (0, f), fun _ f => (0, f),
   fun f => (0, f)⟩

/-- A scan in which every role resolves and every open succeeds. -/
def scanAllGood : ScanResult :=
  { csi2rxFound := true, csi2rxOpen := 0, xispFound := true, xispOpen := 0
    resizerFound := true, resizerOpen := 0, captureFound := true, captureOpen := 0
    sensorFound := true, sensorIsCamSensor := true, sensorCreateOk := true }

/-- The scan of `scanAllGood` except that opening the capture device fails
with `-ENODEV`. -/
def scanCaptureOpenFails : ScanResult :=
  { scanAllGood with captureOpen := -19 }

/-! ## Theorems -/

/-- C1: with every role resolved but `capture->open()` failing with
`-ENODEV` (-19), `match` executes `return ret` inside a `bool` function:
the nonzero errno converts to `true`, so discovery reports success while no
camera is registered and the pipeline is only partially bound — contradicting
both the claim and the surrounding code, whose sibling failure branches all
`return false`. -/
theorem match_captureOpenFailure_reportsSuccess :
    matchBind scanCaptureOpenFails = .returned true none := by decide

/-- C6: the discovery loop tries pipeline-instance indices in ascending
order and selects the first index whose device group is present: whenever it
selects `i`, index `i` is present, every smaller index is absent, exactly the
indices `0..i` were queried (later indices are never tried), and `i < 4`;
moreover on a system where only instance 2 is present among `0..2`, the loop
selects instance 2. -/
theorem matchLoop_first_ascending_match (present : Nat → Bool) :
    (∀ i, (matchLoop present).1 = some i →
      present i = true ∧ (∀ j, j < i → present j = false)
        ∧ (matchLoop present).2 = List.range (i + 1) ∧ i < 4)
    ∧ (present 0 = false → present 1 = false → present 2 = true →
        (matchLoop present).1 = some 2) := by
  by_cases h0 : present 0 <;> by_cases h1 : present 1 <;>
    by_cases h2 : present 2 <;> by_cases h3 : present 3 <;>
      simp [matchLoop, matchLoopAux, h0, h1, h2, h3, List.range_succ] <;>
        (intro j hj; interval_cases j <;> simp_all)

/-- Witness for C6: on the system where exactly instance 2 is present the
loop selects 2, having queried exactly indices 0, 1, 2. -/
theorem matchLoop_first_ascending_match_witness :
    (matchLoop fun n => n == 2).1 = some 2
    ∧ (matchLoop fun n => n == 2).2 = List.range 3 :=
  have h := matchLoop_first_ascending_match fun n => n == 2
  ⟨h.2 rfl rfl rfl, ((h.1 2) (h.2 rfl rfl rfl)).2.2.1⟩

/-- A list with a prefix `p ++ q` also has the prefix `p`. -/
theorem listIsPrefix_append (p q l : List Char)
    (h : listIsPrefix (p ++ q) l = true) : listIsPrefix p l = true := by
  induction p generalizing l with
  | nil => rfl
  | cons a as ih =>
    cases l with
    | nil => simp [listIsPrefix] at h
    | cons b bs =>
      simp only [List.cons_append, listIsPrefix, Bool.and_eq_true] at h ⊢
      exact ⟨h.1, ih bs h.2⟩

/-- A string containing `p ++ q` as a substring also contains `p`. -/
theorem containsSub_append (p q name : List Char)
    (h : containsSub (p ++ q) name = true) : containsSub p name = true := by
  induction name with
  | nil => exact listIsPrefix_append p q [] h
  | cons c rest ih =>
    simp only [containsSub, Bool.or_eq_true] at h ⊢
    rcases h with h | h
    · exact Or.inl (listIsPrefix_append p q (c :: rest) h)
    · exact Or.inr (ih h)

/-- C7 counterexample: the name `"imx219imx708"` contains `"imx219"`, yet the
lookup does not record the imx219 profile (1920×1080): the later `imx708`
test overwrites it with 1536×864. -/
theorem sensorProfileLookup_overlap_counterexample :
    containsSub "imx219".toList "imx219imx708".toList = true
    ∧ sensorProfileLookup "imx219imx708".toList
        ≠ some ⟨⟨1920, 1080⟩, MEDIA_BUS_FMT_SRGGB10_1X10⟩
    ∧ sensorProfileLookup "imx219imx708".toList
        = some ⟨⟨1536, 864⟩, MEDIA_BUS_FMT_SRGGB10_1X10⟩ := by decide

/-- C7 (amended): sensor-profile lookup is a deterministic function of the
entity name in which the *last* matching marker in the order imx219, imx708,
imx477, imx500 wins: a name containing `"imx500"` yields 2028×1520; one
containing `"imx477"` but not `"imx500"` yields 1332×990; one containing
`"imx708"` but neither later marker yields 1536×864; one containing
`"imx219"` and no later marker yields 1920×1080 — each with the SRGGB10
encoding — and a name containing none of the four markers records no
profile. -/
theorem sensorProfileLookup_profiles (name : List Char) :
    (containsSub "imx500".toList name = true →
      sensorProfileLookup name = some ⟨⟨2028, 1520⟩, MEDIA_BUS_FMT_SRGGB10_1X10⟩)
    ∧ (containsSub "imx477".toList name = true →
        containsSub "imx500".toList name = false →
      sensorProfileLookup name = some ⟨⟨1332, 990⟩, MEDIA_BUS_FMT_SRGGB10_1X10⟩)
    ∧ (containsSub "imx708".toList name = true →
        containsSub "imx477".toList name = false →
        containsSub "imx500".toList name = false →
      sensorProfileLookup name = some ⟨⟨1536, 864⟩, MEDIA_BUS_FMT_SRGGB10_1X10⟩)
    ∧ (containsSub "imx219".toList name = true →
        containsSub "imx708".toList name = false →
        containsSub "imx477".toList name = false →
        containsSub "imx500".toList name = false →
      sensorProfileLookup name = some ⟨⟨1920, 1080⟩, MEDIA_BUS_FMT_SRGGB10_1X10⟩)
    ∧ (containsSub "imx219".toList name = false →
        containsSub "imx708".toList name = false →
        containsSub "imx477".toList name = false →
        containsSub "imx500".toList name = false →
      sensorProfileLookup name = none) := by
  have gate : ∀ tail : List Char,
      containsSub ("imx".toList ++ tail) name = true →
      containsSub "imx".toList name = true :=
    fun tail h => containsSub_append "imx".toList tail name h
  refine ⟨?_, ?_, ?_, ?_, ?_⟩
  · intro h500
    have hg := gate "500".toList h500
    simp at hg h500
    simp [sensorProfileLookup, hg, h500]
  · intro h477 h500
    have hg := gate "477".toList h477
    simp at hg h477 h500
    simp [sensorProfileLookup, hg, h477, h500]
  · intro h708 h477 h500
    have hg := gate "708".toList h708
    simp at hg h708 h477 h500
    simp [sensorProfileLookup, hg, h708, h477, h500]
  · intro h219 h708 h477 h500
    have hg := gate "219".toList h219
    simp at hg h219 h708 h477 h500
    simp [sensorProfileLookup, hg, h219, h708, h477, h500]
  · intro h219 h708 h477 h500
    by_cases hg : containsSub "imx".toList name = true
    · simp at hg h219 h708 h477 h500
      simp [sensorProfileLookup, hg, h219, h708, h477, h500]
    · simp at hg
      simp [sensorProfileLookup, hg]

/-- Witness for C7: concrete entity names from the four supported sensor
families and one foreign name evaluate to the profiles the amended claim
states. -/
theorem sensorProfileLookup_profiles_witness :
    sensorProfileLookup "imx219 1-0010".toList
      = some ⟨⟨1920, 1080⟩, MEDIA_BUS_FMT_SRGGB10_1X10⟩
    ∧ sensorProfileLookup "imx708".toList
      = some ⟨⟨1536, 864⟩, MEDIA_BUS_FMT_SRGGB10_1X10⟩
    ∧ sensorProfileLookup "imx477 4-001a".toList
      = some ⟨⟨1332, 990⟩, MEDIA_BUS_FMT_SRGGB10_1X10⟩
    ∧ sensorProfileLookup "imx500 3-001a".toList
      = some ⟨⟨2028, 1520⟩, MEDIA_BUS_FMT_SRGGB10_1X10⟩
    ∧ sensorProfileLookup "ov5640 1-003c".toList = none :=
  ⟨(sensorProfileLookup_profiles _).2.2.2.1 (by decide) (by decide) (by decide)
      (by decide),
   (sensorProfileLookup_profiles _).2.2.1 (by decide) (by decide) (by decide),
   (sensorProfileLookup_profiles _).2.1 (by decide) (by decide),
   (sensorProfileLookup_profiles _).1 (by decide),
   (sensorProfileLookup_profiles _).2.2.2.2 (by decide) (by decide) (by decide)
      (by decide)⟩

/-- The running maximum the `validate` loop computes over a single size,
starting from the zero size, equals the element-wise maximum of that single
size. -/
theorem foldMax_singleton (s : Size) :
    (if sizeLtB ⟨0, 0⟩ s then s else (⟨0, 0⟩ : Size)) = elementWiseMax [s] := by
  obtain ⟨w, h⟩ := s
  simp only [elementWiseMax, List.foldl, sizeLtB]
  rcases Nat.eq_zero_or_pos w with hw | hw <;>
    rcases Nat.eq_zero_or_pos h with hh | hh <;>
      simp_all

/-- C2: for every non-empty proposal, `validate` succeeds and the computed
`sensorFormat_.size` equals the element-wise maximum of the requested widths
and heights across the post-truncation configuration entries. (After the
truncation steps that list always has exactly one entry, so the running
maximum the code computes under the libcamera `Size` ordering coincides with
the element-wise maximum.) -/
theorem validate_sensorSize_elementWiseMax (info : ExternalInfo)
    (cfgs : List StreamCfg) (hne : cfgs ≠ []) :
    sensorSizeOf (validate info initialStreamCount cfgs)
      = some (elementWiseMax
          ((configsOf (validate info initialStreamCount cfgs)).map
            StreamCfg.size)) := by
  obtain ⟨c0, rest, rfl⟩ := List.exists_cons_of_ne_nil hne
  cases rest with
  | nil =>
    simp [validate, initialStreamCount, sensorSizeOf, configsOf,
      assignStreams, ← foldMax_singleton]
  | cons r rs =>
    simp [validate, initialStreamCount, sensorSizeOf, configsOf,
      assignStreams, ← foldMax_singleton]

/-- Witness for C2: a two-entry proposal with different sizes evaluates to a
sensor size equal to the element-wise maximum over the surviving entry. -/
theorem validate_sensorSize_elementWiseMax_witness :
    sensorSizeOf (validate infoZero initialStreamCount
        [⟨⟨640, 480⟩, PF_RBG888, 0, 0, 4, none⟩,
         ⟨⟨320, 240⟩, PF_RBG888, 0, 0, 4, none⟩])
      = some (elementWiseMax
          ((configsOf (validate infoZero initialStreamCount
              [⟨⟨640, 480⟩, PF_RBG888, 0, 0, 4, none⟩,
               ⟨⟨320, 240⟩, PF_RBG888, 0, 0, 4, none⟩])).map StreamCfg.size)) :=
  validate_sensorSize_elementWiseMax infoZero _ (by decide)

/-- C5: a proposal with more than one entry, validated against the topology's
single available pipe, comes back `Adjusted` with exactly one entry, and that
entry is bound to stream 0; an empty proposal is `Invalid`. -/
theorem validate_truncates_to_stream_zero (info : ExternalInfo)
    (cfgs : List StreamCfg) :
    (1 < cfgs.length →
      statusOf (validate info initialStreamCount cfgs) = some true
      ∧ ∃ c, configsOf (validate info initialStreamCount cfgs) = [c]
          ∧ c.stream = some 0)
    ∧ (cfgs = [] → validate info initialStreamCount cfgs = .invalid) := by
  constructor
  · intro hlen
    cases cfgs with
    | nil => simp at hlen
    | cons c0 rest =>
      cases rest with
      | nil => simp at hlen
      | cons r rs =>
        refine ⟨?_, ?_⟩
        · simp [validate, initialStreamCount, statusOf]
        · exact ⟨{ c0 with
              stream := some 0
              stride := info.strideOf c0.pixelFormat c0.size.width 0
              frameSize :=
                info.frameSizeOf c0.pixelFormat c0.size (info.bppOf c0.pixelFormat) },
            by simp [validate, initialStreamCount, configsOf, assignStreams],
            rfl⟩
  · intro h
    subst h
    simp [validate]

/-- Witness for C5: a three-entry proposal validates to `Adjusted` with one
entry bound to stream 0, and the empty proposal is `Invalid`. -/
theorem validate_truncates_to_stream_zero_witness :
    (statusOf (validate infoZero initialStreamCount
        [⟨⟨640, 480⟩, PF_RBG888, 0, 0, 4, none⟩,
         ⟨⟨320, 240⟩, PF_RBG888, 0, 0, 4, none⟩,
         ⟨⟨160, 120⟩, PF_RBG888, 0, 0, 4, none⟩]) = some true
      ∧ ∃ c, configsOf (validate infoZero initialStreamCount
          [⟨⟨640, 480⟩, PF_RBG888, 0, 0, 4, none⟩,
           ⟨⟨320, 240⟩, PF_RBG888, 0, 0, 4, none⟩,
           ⟨⟨160, 120⟩, PF_RBG888, 0, 0, 4, none⟩]) = [c] ∧ c.stream = some 0)
    ∧ validate infoZero initialStreamCount [] = .invalid :=
  ⟨(validate_truncates_to_stream_zero infoZero _).1 (by decide),
   (validate_truncates_to_stream_zero infoZero []).2 rfl⟩

/-- C10: `generateConfiguration` returns an empty proposal for an empty role
list; for exactly one supported role it returns one entry with the fixed
defaults — size 640×480, pixel format `RBG888`, buffer count 4, and stride /
frame size taken from the pixel-format metadata service for that format; it
returns `none` for more than one role and for a role list containing an
unsupported role. -/
theorem generateConfiguration_defaults (info : ExternalInfo)
    (roles : List StreamRole) :
    (roles = [] → generateConfiguration info roles = some [])
    ∧ (∀ r, roles = [r] → roleSupported r = true →
        ∃ c, generateConfiguration info roles = some [c]
          ∧ c.size = ⟨640, 480⟩ ∧ c.pixelFormat = PF_RBG888 ∧ c.bufferCount = 4
          ∧ c.stride = info.strideOf PF_RBG888 640 0
          ∧ c.frameSize
              = info.frameSizeOf PF_RBG888 ⟨640, 480⟩ (info.bppOf PF_RBG888))
    ∧ (1 < roles.length → generateConfiguration info roles = none)
    ∧ (∀ r, r ∈ roles → roleSupported r = false →
        generateConfiguration info roles = none) := by
  refine ⟨?_, ?_, ?_, ?_⟩
  · intro h
    subst h
    simp [generateConfiguration]
  · intro r hr hsup
    subst hr
    refine ⟨{ size := ⟨640, 480⟩
              pixelFormat := PF_RBG888
              stride := info.strideOf PF_RBG888 640 0
              frameSize := info.frameSizeOf PF_RBG888 ⟨640, 480⟩ (info.bppOf PF_RBG888)
              bufferCount := 4
              stream := some 0 }, ?_, rfl, rfl, rfl, rfl, rfl⟩
    simp [generateConfiguration, initialStreamCount, hsup, configsAfterValidate,
      validate, assignStreams]
  · intro hlen
    cases roles with
    | nil => simp at hlen
    | cons r1 rest =>
      cases rest with
      | nil => simp at hlen
      | cons r2 rs =>
        simp [generateConfiguration, initialStreamCount]
  · intro r hmem hunsup
    cases roles with
    | nil => simp at hmem
    | cons r1 rest =>
      by_cases hlen : 1 < (r1 :: rest).length
      · cases rest with
        | nil => simp at hlen
        | cons r2 rs => simp [generateConfiguration, initialStreamCount]
      · cases rest with
        | nil =>
          simp at hmem
          subst hmem
          simp [generateConfiguration, initialStreamCount, hunsup]
        | cons r2 rs => simp at hlen

/-- Witness for C10: one `Viewfinder` role yields the single default entry;
two roles yield `none`; a single unsupported role yields `none`. -/
theorem generateConfiguration_defaults_witness :
    (∃ c, generateConfiguration infoZero [StreamRole.Viewfinder] = some [c]
      ∧ c.size = ⟨640, 480⟩ ∧ c.pixelFormat = PF_RBG888 ∧ c.bufferCount = 4
      ∧ c.stride = infoZero.strideOf PF_RBG888 640 0
      ∧ c.frameSize
          = infoZero.frameSizeOf PF_RBG888 ⟨640, 480⟩ (infoZero.bppOf PF_RBG888))
    ∧ generateConfiguration infoZero [StreamRole.Raw, StreamRole.Viewfinder] = none
    ∧ generateConfiguration infoZero [StreamRole.unknown] = none
    ∧ generateConfiguration infoZero [] = some [] :=
  ⟨(generateConfiguration_defaults infoZero [StreamRole.Viewfinder]).2.1
      StreamRole.Viewfinder rfl rfl,
   (generateConfiguration_defaults infoZero _).2.2.1 (by decide),
   (generateConfiguration_defaults infoZero [StreamRole.unknown]).2.2.2
      StreamRole.unknown (by decide) rfl,
   (generateConfiguration_defaults infoZero []).1 rfl⟩

/-- C4: for a (validated) single-entry configuration, `configure` issues its
format-set calls in upstream-to-downstream stage order (sensor, receiver,
ISP core, resizer, capture); every call but the last one succeeded; on
overall success all eight calls were issued (stages 0,1,1,2,2,3,3,4); and on
failure the returned error is exactly the last issued call's code — no later
stage is called and nothing issued before the failure is retracted. -/
theorem configure_order_early_abort (dev : Devices) (info : ExternalInfo)
    (sbs : Size) (sbc : Nat) (sel : SubdevFormat) (e : StreamCfg)
    (prev : List (Option Nat)) :
    List.Chain' (fun a b => stageOf a.1 ≤ stageOf b.1)
      (configure dev info sbs sbc sel [e] prev).calls
    ∧ (∀ c ∈ (configure dev info sbs sbc sel [e] prev).calls.dropLast, c.2 = 0)
    ∧ ((configure dev info sbs sbc sel [e] prev).ret = 0 →
        (configure dev info sbs sbc sel [e] prev).calls.map (fun c => stageOf c.1)
          = [0, 1, 1, 2, 2, 3, 3, 4])
    ∧ ((configure dev info sbs sbc sel [e] prev).ret ≠ 0 →
        ((configure dev info sbs sbc sel [e] prev).calls.map Prod.snd).getLast?
          = some (configure dev info sbs sbc sel [e] prev).ret) := by
  generalize hres : configure dev info sbs sbc sel [e] prev = res
  simp only [configure, configureLoop] at hres
  rcases hr1 : dev.sensorSet ⟨sbc, sbs⟩ with ⟨e1, f1⟩
  rw [hr1] at hres
  dsimp at hres
  by_cases h1 : e1 = 0
  case neg =>
    rw [if_pos (by simp [h1] : (e1 != 0) = true)] at hres
    subst hres
    refine ⟨by simp [stageOf], by simp, by simp [h1], fun _ => by simp⟩
  case pos =>
    subst h1
    rw [if_neg (by simp : ¬(((0 : Int) != 0) = true))] at hres
    rcases hr2 : dev.csi2rxSet 0 f1 with ⟨e2, f2⟩
    rw [hr2] at hres
    dsimp at hres
    by_cases h2 : e2 = 0
    case neg =>
      rw [if_pos (by simp [h2] : (e2 != 0) = true)] at hres
      subst hres
      refine ⟨by simp [stageOf], by simp, by simp [h2], fun _ => by simp⟩
    case pos =>
      subst h2
      rw [if_neg (by simp : ¬(((0 : Int) != 0) = true))] at hres
      rcases hr3 : dev.csi2rxSet 1 f2 with ⟨e3, f3⟩
      rw [hr3] at hres
      dsimp at hres
      by_cases h3 : e3 = 0
      case neg =>
        rw [if_pos (by simp [h3] : (e3 != 0) = true)] at hres
        subst hres
        refine ⟨by simp [stageOf], by simp, by simp [h3], fun _ => by simp⟩
      case pos =>
        subst h3
        rw [if_neg (by simp : ¬(((0 : Int) != 0) = true))] at hres
        rcases hr4 : dev.xispSet 0 f3 with ⟨e4, f4⟩
        rw [hr4] at hres
        dsimp at hres
        by_cases h4 : e4 = 0
        case neg =>
          rw [if_pos (by simp [h4] : (e4 != 0) = true)] at hres
          subst hres
          refine ⟨by simp [stageOf], by simp, by simp [h4], fun _ => by simp⟩
        case pos =>
          subst h4
          rw [if_neg (by simp : ¬(((0 : Int) != 0) = true))] at hres
          rcases hr5 : dev.xispSet 1 ⟨MEDIA_BUS_FMT_RBG888_1X24, sbs⟩ with ⟨e5, f5⟩
          rw [hr5] at hres
          dsimp at hres
          by_cases h5 : e5 = 0
          case neg =>
            rw [if_pos (by simp [h5] : (e5 != 0) = true)] at hres
            subst hres
            refine ⟨by simp [stageOf], by simp, by simp [h5], fun _ => by simp⟩
          case pos =>
            subst h5
            rw [if_neg (by simp : ¬(((0 : Int) != 0) = true))] at hres
            rcases hr6 : dev.resizerSet 0 f5 with ⟨e6, f6⟩
            rw [hr6] at hres
            dsimp at hres
            by_cases h6 : e6 = 0
            case neg =>
              rw [if_pos (by simp [h6] : (e6 != 0) = true)] at hres
              subst hres
              refine ⟨by simp [stageOf], by simp, by simp [h6], fun _ => by simp⟩
            case pos =>
              subst h6
              rw [if_neg (by simp : ¬(((0 : Int) != 0) = true))] at hres
              rcases hr7 : dev.resizerSet 1 ⟨MEDIA_BUS_FMT_RBG888_1X24, sel.size⟩
                with ⟨e7, f7⟩
              rw [hr7] at hres
              dsimp at hres
              by_cases h7 : e7 = 0
              case neg =>
                rw [if_pos (by simp [h7] : (e7 != 0) = true)] at hres
                subst hres
                refine ⟨by simp [stageOf], by simp, by simp [h7],
                  fun _ => by simp⟩
              case pos =>
                subst h7
                rw [if_neg (by simp : ¬(((0 : Int) != 0) = true))] at hres
                rcases hr8 : dev.captureSet ⟨info.fourccOf e.pixelFormat, e.size,
                    info.numPlanesOf e.pixelFormat, e.stride⟩ with ⟨e8, f8⟩
                rw [hr8] at hres
                dsimp at hres
                by_cases h8 : e8 = 0
                case neg =>
                  rw [if_pos (by simp [h8] : (e8 != 0) = true)] at hres
                  subst hres
                  refine ⟨by simp [stageOf], by simp, by simp [h8],
                    fun _ => by simp⟩
                case pos =>
                  subst h8
                  rw [if_neg (by simp : ¬(((0 : Int) != 0) = true))] at hres
                  subst hres
                  refine ⟨by simp [stageOf], by simp, fun _ => by simp [stageOf],
                    fun hne => absurd rfl hne⟩

/-- Witness for C4: with devices that accept every format, `configure`
succeeds and the issued calls run through the stages 0,1,1,2,2,3,3,4. -/
theorem configure_order_early_abort_witness :
    (configure devZero infoZero ⟨1920, 1080⟩ MEDIA_BUS_FMT_SRGGB10_1X10
        ⟨MEDIA_BUS_FMT_RBG888_1X24, ⟨640, 480⟩⟩
        [⟨⟨640, 480⟩, PF_RBG888, 1920, 921600, 4, some 0⟩] []).calls.map
      (fun c => stageOf c.1) = [0, 1, 1, 2, 2, 3, 3, 4] :=
  (configure_order_early_abort devZero infoZero ⟨1920, 1080⟩
      MEDIA_BUS_FMT_SRGGB10_1X10 ⟨MEDIA_BUS_FMT_RBG888_1X24, ⟨640, 480⟩⟩
      ⟨⟨640, 480⟩, PF_RBG888, 1920, 921600, 4, some 0⟩ []).2.2.1 rfl

/-- C8: `configure` run a second time with the same configuration, from the
state the first run left behind (`enabledStreams_` as rebuilt by the first
run), produces the identical result: the same format-set calls with the same
arguments, the same return code, and the same enabled-stream list. -/
theorem configure_idempotent (dev : Devices) (info : ExternalInfo)
    (sbs : Size) (sbc : Nat) (sel : SubdevFormat) (entries : List StreamCfg)
    (prev : List (Option Nat)) :
    configure dev info sbs sbc sel entries
        (configure dev info sbs sbc sel entries prev).enabledStreams
      = configure dev info sbs sbc sel entries prev := by
  generalize hres : configure dev info sbs sbc sel entries prev = res1
  simp only [configure] at hres ⊢
  set r1 := dev.sensorSet ⟨sbc, sbs⟩ with hr1
  by_cases h1 : r1.1 = 0
  case neg =>
    rw [if_pos (by simp [h1] : (r1.1 != 0) = true)] at hres ⊢
    subst hres
    rfl
  case pos =>
    rw [if_neg (by simp [h1] : ¬((r1.1 != 0) = true))] at hres ⊢
    set r2 := dev.csi2rxSet 0 r1.2 with hr2
    by_cases h2 : r2.1 = 0
    case neg =>
      rw [if_pos (by simp [h2] : (r2.1 != 0) = true)] at hres ⊢
      subst hres
      rfl
    case pos =>
      rw [if_neg (by simp [h2] : ¬((r2.1 != 0) = true))] at hres ⊢
      set r3 := dev.csi2rxSet 1 r2.2 with hr3
      by_cases h3 : r3.1 = 0
      case neg =>
        rw [if_pos (by simp [h3] : (r3.1 != 0) = true)] at hres ⊢
        subst hres
        rfl
      case pos =>
        rw [if_neg (by simp [h3] : ¬((r3.1 != 0) = true))] at hres ⊢
        set r4 := dev.xispSet 0 r3.2 with hr4
        by_cases h4 : r4.1 = 0
        case neg =>
          rw [if_pos (by simp [h4] : (r4.1 != 0) = true)] at hres ⊢
          subst hres
          rfl
        case pos =>
          rw [if_neg (by simp [h4] : ¬((r4.1 != 0) = true))] at hres ⊢
          set r5 := dev.xispSet 1 ⟨MEDIA_BUS_FMT_RBG888_1X24, sbs⟩ with hr5
          by_cases h5 : r5.1 = 0
          case neg =>
            rw [if_pos (by simp [h5] : (r5.1 != 0) = true)] at hres ⊢
            subst hres
            rfl
          case pos =>
            rw [if_neg (by simp [h5] : ¬((r5.1 != 0) = true))] at hres ⊢
            exact hres

/-- C9: whenever `match` registers a camera, the bound pipeline has exactly
one pipe and the camera exactly one stream; for any stream belonging to that
single-element collection the positional `pipeIndex` is 0, and the unchecked
`pipes_[pipeIndex]` access of `pipeFromStream` is in bounds. -/
theorem pipeFromStream_inBounds (s : ScanResult) (b : BoundPipeline)
    (hm : matchBind s = .returned true (some b)) (streamPos : Nat)
    (hs : streamPos < b.camStreams) (pipes : List Nat)
    (hp : pipes.length = b.pipes) :
    pipeIndex streamPos = 0 ∧ pipeIndex streamPos < pipes.length
    ∧ (pipeFromStream pipes streamPos).isSome = true := by
  have hb : b = ⟨1, initialStreamCount⟩ := by
    simp only [matchBind] at hm
    by_cases hc1 : s.csi2rxFound = true
    case neg =>
      rw [if_pos (by simp [hc1] : (!s.csi2rxFound) = true)] at hm
      exact absurd hm (by simp)
    case pos =>
      rw [if_neg (by simp [hc1] : ¬((!s.csi2rxFound) = true))] at hm
      by_cases hc2 : s.csi2rxOpen = 0
      case neg =>
        rw [if_pos (by simp [hc2] : (s.csi2rxOpen != 0) = true)] at hm
        exact absurd hm (by simp)
      case pos =>
        rw [if_neg (by simp [hc2] : ¬((s.csi2rxOpen != 0) = true))] at hm
        by_cases hc3 : s.xispFound = true
        case neg =>
          rw [if_pos (by simp [hc3] : (!s.xispFound) = true)] at hm
          exact absurd hm (by simp)
        case pos =>
          rw [if_neg (by simp [hc3] : ¬((!s.xispFound) = true))] at hm
          by_cases hc4 : s.xispOpen = 0
          case neg =>
            rw [if_pos (by simp [hc4] : (s.xispOpen != 0) = true)] at hm
            exact absurd hm (by simp)
          case pos =>
            rw [if_neg (by simp [hc4] : ¬((s.xispOpen != 0) = true))] at hm
            by_cases hc5 : s.resizerFound = true
            case neg =>
              rw [if_pos (by simp [hc5] : (!s.resizerFound) = true)] at hm
              exact absurd hm (by simp)
            case pos =>
              rw [if_neg (by simp [hc5] : ¬((!s.resizerFound) = true))] at hm
              by_cases hc6 : s.resizerOpen = 0
              case neg =>
                rw [if_pos (by simp [hc6] : (s.resizerOpen != 0) = true)] at hm
                exact absurd hm (by simp)
              case pos =>
                rw [if_neg (by simp [hc6] : ¬((s.resizerOpen != 0) = true))] at hm
                by_cases hc7 : s.captureFound = true
                case neg =>
                  rw [if_pos (by simp [hc7] : (!s.captureFound) = true)] at hm
                  exact absurd hm (by simp)
                case pos =>
                  rw [if_neg (by simp [hc7] : ¬((!s.captureFound) = true))] at hm
                  by_cases hc8 : s.captureOpen = 0
                  case neg =>
                    rw [if_pos (by simp [hc8] : (s.captureOpen != 0) = true)] at hm
                    exact absurd hm (by simp)
                  case pos =>
                    rw [if_neg (by simp [hc8] : ¬((s.captureOpen != 0) = true))] at hm
                    dsimp at hm
                    by_cases hc9 : s.sensorFound = true
                    case neg =>
                      rw [if_pos (by simp [hc9] : (!s.sensorFound) = true)] at hm
                      exact absurd hm (by simp)
                    case pos =>
                      rw [if_neg (by simp [hc9] : ¬((!s.sensorFound) = true))] at hm
                      by_cases hc10 : s.sensorIsCamSensor = true
                      case neg =>
                        rw [if_pos (by simp [hc10] : (!s.sensorIsCamSensor) = true)] at hm
                        exact absurd hm (by simp)
                      case pos =>
                        rw [if_neg (by simp [hc10] : ¬((!s.sensorIsCamSensor) = true))] at hm
                        by_cases hc11 : s.sensorCreateOk = true
                        case neg =>
                          rw [if_pos (by simp [hc11] : (!s.sensorCreateOk) = true)] at hm
                          exact absurd hm (by simp)
                        case pos =>
                          rw [if_neg (by simp [hc11] : ¬((!s.sensorCreateOk) = true))] at hm
                          exact (Option.some.inj (MatchOutcome.returned.inj hm).2).symm
  subst hb
  have h0 : streamPos = 0 := by
    simp only [initialStreamCount] at hs
    omega
  subst h0
  cases pipes with
  | nil => simp at hp
  | cons x rest => simp [pipeIndex, pipeFromStream]

/-- Witness for C9: an all-good scan registers a camera with one pipe and
one stream, and stream 0 resolves in bounds against a one-pipe collection. -/
theorem pipeFromStream_inBounds_witness :
    pipeIndex 0 = 0 ∧ pipeIndex 0 < ([42] : List Nat).length
    ∧ (pipeFromStream [42] 0).isSome = true :=
  pipeFromStream_inBounds scanAllGood ⟨1, initialStreamCount⟩ rfl 0 (by decide)
    [42] rfl

/-- One `bufferReady` call removes the reported slot from the pending ones
(and nothing else touches them). -/
theorem bufferReady_pendingSlots (s : ReqState) (b t : Nat) :
    (bufferReady s b t).pendingSlots = s.pendingSlots.erase b := by
  rcases s with ⟨ps, ts, c⟩
  cases ts <;>
    simp [bufferReady, completeBuffer, hasPendingBuffers, completeRequest] <;>
      split <;> rfl

/-- One `bufferReady` call stamps the timestamp only when it is not yet
present. -/
theorem bufferReady_timestamp (s : ReqState) (b t : Nat) :
    (bufferReady s b t).timestamp
      = if s.timestamp.isNone then some t else s.timestamp := by
  rcases s with ⟨ps, ts, c⟩
  cases ts <;>
    simp [bufferReady, completeBuffer, hasPendingBuffers, completeRequest] <;>
      split <;> rfl

/-- One `bufferReady` call completes the request exactly when the removal of
the reported slot leaves no slot pending. -/
theorem bufferReady_completions (s : ReqState) (b t : Nat) :
    (bufferReady s b t).completions
      = if (s.pendingSlots.erase b).isEmpty then s.completions + 1
        else s.completions := by
  rcases s with ⟨ps, ts, c⟩
  by_cases hemp : (ps.erase b).isEmpty
  · cases ts <;>
      simp [bufferReady, completeBuffer, hasPendingBuffers, completeRequest, hemp]
  · cases ts <;>
      simp [bufferReady, completeBuffer, hasPendingBuffers, completeRequest, hemp]

/-- `runReady` on a cons processes the head report first. -/
theorem runReady_cons (s : ReqState) (b t : Nat) (rest : List (Nat × Nat)) :
    runReady s ((b, t) :: rest) = runReady (bufferReady s b t) rest := rfl

/-- `bufferReady` completion count when the reported slot was the last
pending one. -/
theorem bufferReady_completions_of_empty (s : ReqState) (b t : Nat)
    (h : s.pendingSlots.erase b = []) :
    (bufferReady s b t).completions = s.completions + 1 := by
  rw [bufferReady_completions, h]
  rfl

/-- `bufferReady` completion count when slots remain pending afterwards. -/
theorem bufferReady_completions_of_ne (s : ReqState) (b t : Nat)
    (h : s.pendingSlots.erase b ≠ []) :
    (bufferReady s b t).completions = s.completions := by
  rw [bufferReady_completions]
  simp [h]

/-- Processing ready reports from a duplicate-free pending list leaves
exactly the slots that no report named. -/
theorem runReady_pendingSlots (rs : List (Nat × Nat)) (s : ReqState)
    (h : s.pendingSlots.Nodup) :
    (runReady s rs).pendingSlots
      = s.pendingSlots.filter (fun a => !(rs.map Prod.fst).contains a) := by
  induction rs generalizing s with
  | nil => simp [runReady]
  | cons r rest ih =>
    obtain ⟨b, t⟩ := r
    rw [runReady_cons, ih _ (by rw [bufferReady_pendingSlots]; exact h.erase b)]
    rw [bufferReady_pendingSlots, h.erase_eq_filter b, List.filter_filter]
    congr 1
    funext a
    by_cases hab : a = b <;> simp [hab, Bool.and_comm, bne]

/-- The completion count never decreases while reports are processed. -/
theorem runReady_completions_mono (rs : List (Nat × Nat)) (s : ReqState) :
    s.completions ≤ (runReady s rs).completions := by
  induction rs generalizing s with
  | nil => exact Nat.le_refl _
  | cons r rest ih =>
    obtain ⟨b, t⟩ := r
    rw [runReady_cons]
    refine Nat.le_trans ?_ (ih _)
    rw [bufferReady_completions]
    split <;> omega

/-- Once no slot is pending, every further report completes the request
again (the pending list stays empty). -/
theorem runReady_pending_empty (rs : List (Nat × Nat)) (s : ReqState)
    (h : s.pendingSlots = []) :
    (runReady s rs).pendingSlots = []
    ∧ (runReady s rs).completions = s.completions + rs.length := by
  induction rs generalizing s with
  | nil => simp [runReady, h]
  | cons r rest ih =>
    obtain ⟨b, t⟩ := r
    rw [runReady_cons]
    have hp : (bufferReady s b t).pendingSlots = [] := by
      rw [bufferReady_pendingSlots, h]
      rfl
    have hc : (bufferReady s b t).completions = s.completions + 1 :=
      bufferReady_completions_of_empty s b t (by rw [h]; rfl)
    obtain ⟨h1, h2⟩ := ih _ hp
    refine ⟨h1, ?_⟩
    rw [h2, hc]
    simp
    omega

/-- If the completion count has grown, the pending list has been emptied. -/
theorem runReady_completed_pending (rs : List (Nat × Nat)) (s : ReqState)
    (h : s.completions < (runReady s rs).completions) :
    (runReady s rs).pendingSlots = [] := by
  induction rs generalizing s with
  | nil => simp [runReady] at h
  | cons r rest ih =>
    obtain ⟨b, t⟩ := r
    rw [runReady_cons] at h ⊢
    by_cases hp : (bufferReady s b t).pendingSlots = []
    · exact (runReady_pending_empty rest _ hp).1
    · apply ih
      have hc := bufferReady_completions_of_ne s b t
        (by rwa [bufferReady_pendingSlots] at hp)
      omega

/-- Emptying a non-empty pending list strictly increases the completion
count: the request is handed back at least once. -/
theorem runReady_covered_completes (rs : List (Nat × Nat)) (s : ReqState)
    (hne : s.pendingSlots ≠ []) (h : (runReady s rs).pendingSlots = []) :
    s.completions < (runReady s rs).completions := by
  induction rs generalizing s with
  | nil =>
    rw [runReady] at h
    exact absurd h hne
  | cons r rest ih =>
    obtain ⟨b, t⟩ := r
    rw [runReady_cons] at h ⊢
    by_cases hp : (bufferReady s b t).pendingSlots = []
    · have hc := bufferReady_completions_of_empty s b t
        (by rwa [bufferReady_pendingSlots] at hp)
      have := runReady_completions_mono rest (bufferReady s b t)
      omega
    · have hc := bufferReady_completions_of_ne s b t
        (by rwa [bufferReady_pendingSlots] at hp)
      have := ih (bufferReady s b t) hp h
      omega

/-- As long as every proper prefix of the report list leaves some slot
pending, the request completes at most once. -/
theorem runReady_at_most_once (rs : List (Nat × Nat)) (s : ReqState)
    (hne : s.pendingSlots ≠ [])
    (hpre : ∀ n, n < rs.length →
      (runReady s (rs.take n)).pendingSlots ≠ []) :
    (runReady s rs).completions ≤ s.completions + 1 := by
  induction rs generalizing s with
  | nil =>
    rw [runReady]
    omega
  | cons r rest ih =>
    obtain ⟨b, t⟩ := r
    rw [runReady_cons]
    by_cases hp : (bufferReady s b t).pendingSlots = []
    · cases rest with
      | nil =>
        rw [runReady]
        rw [bufferReady_completions_of_empty s b t
          (by rwa [bufferReady_pendingSlots] at hp)]
      | cons r2 rest2 =>
        refine absurd ?_ (hpre 1 (by simp))
        simpa [runReady_cons, runReady] using hp
    · have hc := bufferReady_completions_of_ne s b t
        (by rwa [bufferReady_pendingSlots] at hp)
      have hr := ih (bufferReady s b t) hp ?_
      · omega
      · intro n hn
        have := hpre (n + 1) (by simpa using hn)
        simpa [runReady_cons] using this

/-- A timestamp, once stamped, survives every further report. -/
theorem runReady_timestamp_some (rs : List (Nat × Nat)) (s : ReqState)
    (t0 : Nat) (h : s.timestamp = some t0) :
    (runReady s rs).timestamp = some t0 := by
  induction rs generalizing s with
  | nil => simpa [runReady] using h
  | cons r rest ih =>
    obtain ⟨b, t⟩ := r
    rw [runReady_cons]
    refine ih _ ?_
    rw [bufferReady_timestamp, h]
    rfl

/-- C3 counterexample: on a request with two buffer slots, the report trace
0, 1, 0 — a duplicate report of slot 0 arriving after the request already
completed — completes the request twice: the buffer-ready handler has no
guard against re-completing an already-complete request. -/
theorem bufferReady_duplicate_double_completes :
    (runReady (initReq [0, 1]) [(0, 5), (1, 7), (0, 9)]).completions = 2
    ∧ (runReady (initReq [0, 1]) [(0, 5), (1, 7), (0, 9)]).completions ≠ 1 := by
  decide

/-- C3 (amended): for a request over duplicate-free buffer slots, the
handler completes the request (at least once) exactly when every slot has
been reported ready — duplicate reports never under-complete it; it
completes the request exactly once provided every proper prefix of the
report trace leaves some slot pending (i.e. any duplicate arrives before
the request's final outstanding buffer is reported, not after completion);
and the SensorTimestamp metadata is stamped exactly once, from whichever
buffer completes first. -/
theorem bufferReady_request_completion (slots : List Nat)
    (rs : List (Nat × Nat)) (hnd : slots.Nodup) (hne : slots ≠ []) :
    (1 ≤ (runReady (initReq slots) rs).completions ↔
      ∀ a ∈ slots, a ∈ rs.map Prod.fst)
    ∧ ((∀ n, n < rs.length →
          (runReady (initReq slots) (rs.take n)).pendingSlots ≠ []) →
        (runReady (initReq slots) rs).completions ≤ 1)
    ∧ (∀ b t rest, rs = (b, t) :: rest →
        (runReady (initReq slots) rs).timestamp = some t) := by
  have hinit : (initReq slots).pendingSlots = slots := rfl
  refine ⟨⟨?_, ?_⟩, ?_, ?_⟩
  · intro h a ha
    have hemp : (runReady (initReq slots) rs).pendingSlots = [] :=
      runReady_completed_pending rs _ (by simpa [initReq] using h)
    rw [runReady_pendingSlots rs _ (by simpa [initReq] using hnd), hinit,
      List.filter_eq_nil_iff] at hemp
    have := hemp a ha
    simpa using this
  · intro h
    have hemp : (runReady (initReq slots) rs).pendingSlots = [] := by
      rw [runReady_pendingSlots rs _ (by simpa [initReq] using hnd), hinit,
        List.filter_eq_nil_iff]
      intro a ha
      simpa using h a ha
    have := runReady_covered_completes rs (initReq slots)
      (by simpa [initReq] using hne) hemp
    simpa [initReq] using this
  · intro hpre
    have := runReady_at_most_once rs (initReq slots)
      (by simpa [initReq] using hne) hpre
    simpa [initReq] using this
  · intro b t rest hrs
    subst hrs
    rw [runReady_cons]
    refine runReady_timestamp_some rest _ t ?_
    rw [bufferReady_timestamp]
    rfl

/-- Witness for C3: a two-slot request fed the trace 0, 0, 1 — slot 0
reported twice, the duplicate arriving while slot 1 is still pending —
completes exactly once, with the timestamp taken from the first report. -/
theorem bufferReady_request_completion_witness :
    1 ≤ (runReady (initReq [0, 1]) [(0, 3), (0, 4), (1, 9)]).completions
    ∧ (runReady (initReq [0, 1]) [(0, 3), (0, 4), (1, 9)]).completions ≤ 1
    ∧ (runReady (initReq [0, 1]) [(0, 3), (0, 4), (1, 9)]).timestamp = some 3 :=
  ⟨(bufferReady_request_completion [0, 1] [(0, 3), (0, 4), (1, 9)] (by decide)
      (by decide)).1.mpr (by decide),
   (bufferReady_request_completion [0, 1] [(0, 3), (0, 4), (1, 9)] (by decide)
      (by decide)).2.1 (by decide),
   (bufferReady_request_completion [0, 1] [(0, 3), (0, 4), (1, 9)] (by decide)
      (by decide)).2.2 0 3 [(0, 4), (1, 9)] rfl⟩

end XISP
